import Mathlib

/-!
Verification of the SF_Gov_Platform authorization and presentation layer.

The definitions below are a shallow embedding of the Python sources under
`src/streamlit_app/lib/`: the configuration tables read by the data access
layer (`dal.py`) become explicit Lean structures, the SQL lookups become list
filters over those structures, and the access-control functions of `authz.py`
become Lean functions with the same branch structure as the source.
-/

namespace SFGov

/-- Row of the `GOV_APP.CONFIG.ROLE_PAGE_ACCESS` configuration table:
one access rule per (role, page), carrying a free-form level string. -/
structure AccessRule where
  role : String
  page : String
  level : String
deriving DecidableEq, Repr

/-- Row of the `GOV_APP.CONFIG.DOMAIN_VISIBILITY` configuration table.
`ACCESS_TYPE` and `RESTRICTIONS` are nullable columns, hence `Option`. -/
structure DomainRule where
  role : String
  domain : String
  accessType : Option String
  restrictions : Option String
deriving DecidableEq, Repr

/-- State of the warehouse configuration schema as seen by the DAL.
A field of `none` models the table being absent (or the query against it
failing), in which case `execute_query` swallows the error and hands back an
empty frame; `some rows` models a readable table with the given rows. -/
structure Warehouse where
  rolePageAccess : Option (List AccessRule)
  domainVisibility : Option (List DomainRule)
deriving DecidableEq, Repr

/-- Rows returned by the `SELECT ... FROM ROLE_PAGE_ACCESS WHERE ROLE_NAME = ?
AND PAGE_NAME = ?` query that `dal.check_page_access` issues. An absent table
gives an empty result because `execute_query` catches the error. -/
def query_role_page_access (w : Warehouse) (role_name page_name : String) :
    List AccessRule :=
  match w.rolePageAccess with
  | none => []
  | some rows => rows.filter fun r => r.role == role_name && r.page == page_name

/-- Embedding of `GovernanceDAL.check_page_access` (dal.py): return the
`ACCESS_LEVEL` of the first matching row, or `None` when the frame is empty. -/
def check_page_access (w : Warehouse) (role_name page_name : String) :
    Option String :=
  match query_role_page_access w role_name page_name with
  | [] => none
  | r :: _ => some r.level

/-- Embedding of the `level_hierarchy.get(key, default)` calls in
`page_visible` (authz.py): the dict is literally
READ to 1, WRITE to 2, ADMIN to 3, and `default` is what `.get` falls back to
for any other string. -/
def level_hierarchy_get (key : String) (default : Nat) : Nat :=
  if key = "READ" then 1
  else if key = "WRITE" then 2
  else if key = "ADMIN" then 3
  else default

/-- Embedding of `authz.page_visible`, state-passing form. The body mirrors
the source: fetch the access level via the DAL, return `False` on a falsy
(`None` or empty-string) level, otherwise compare
`level_hierarchy.get(access_level, 0)` against
`level_hierarchy.get(required_level, 1)`. The lookup is a SQL SELECT, so the
warehouse state is returned unchanged. -/
def page_visible_st (w : Warehouse) (role_name page_name required_level : String) :
    Bool × Warehouse :=
  let access_level := check_page_access w role_name page_name
  match access_level with
  | none => (false, w)
  | some lvl =>
      if lvl = "" then (false, w)
      else
        let user_level := level_hierarchy_get lvl 0
        let required_level_val := level_hierarchy_get required_level 1
        (decide (user_level ≥ required_level_val), w)

/-- Decision component of `authz.page_visible`. -/
def page_visible (w : Warehouse) (role_name page_name required_level : String) :
    Bool :=
  (page_visible_st w role_name page_name required_level).1

/-- Embedding of `authz.get_current_user_role`: the Snowpark session context
either yields a (user, role) pair or raises, and the handler substitutes
("UNKNOWN", "PUBLIC"). -/
def get_current_user_role (ctx : Except String (String × String)) :
    String × String :=
  match ctx with
  | Except.ok p => p
  | Except.error _ => ("UNKNOWN", "PUBLIC")

/-- Rows returned by the `DOMAIN_VISIBILITY` lookup of
`dal.check_domain_access`; an absent table again yields an empty frame. -/
def query_domain_visibility (w : Warehouse) (role_name domain_name : String) :
    List DomainRule :=
  match w.domainVisibility with
  | none => []
  | some rows => rows.filter fun r => r.role == role_name && r.domain == domain_name

/-- Embedding of `GovernanceDAL.check_domain_access` (dal.py): the first
matching row as a record, or `None` when the frame is empty. -/
def check_domain_access (w : Warehouse) (role_name domain_name : String) :
    Option DomainRule :=
  match query_domain_visibility w role_name domain_name with
  | [] => none
  | r :: _ => some r

/-- Embedding of `authz.can_access_domain`: default deny when no row is
found, otherwise test `ACCESS_TYPE in ['FULL', 'LIMITED']`. -/
def can_access_domain (w : Warehouse) (role_name domain_name : String) : Bool :=
  match check_domain_access w role_name domain_name with
  | none => false
  | some row => row.accessType == some "FULL" || row.accessType == some "LIMITED"

/-- The hard-coded `permission_mappings` dict of `authz.has_access`,
verbatim from the source. -/
def permission_mappings : List (String × List String) :=
  [("EXPORT", ["GOVERNANCE_ADMIN", "DATA_STEWARD", "GOVERNANCE_ANALYST"]),
   ("ADMIN", ["GOVERNANCE_ADMIN"]),
   ("AUDIT", ["GOVERNANCE_ADMIN", "AUDIT_ROLE"]),
   ("RISK_MGMT", ["GOVERNANCE_ADMIN", "RISK_MANAGER", "AUDIT_ROLE"]),
   ("STEWARD", ["GOVERNANCE_ADMIN", "DATA_STEWARD"]),
   ("ANALYST", ["GOVERNANCE_ADMIN", "DATA_STEWARD", "GOVERNANCE_ANALYST"]),
   ("VIEW_PII", ["GOVERNANCE_ADMIN", "DATA_STEWARD", "PRIVACY_OFFICER"]),
   ("MODIFY_GLOSSARY", ["GOVERNANCE_ADMIN", "DATA_STEWARD"]),
   ("APPROVE_CHANGES", ["GOVERNANCE_ADMIN", "DATA_STEWARD"]),
   ("CREATE_TICKETS", ["GOVERNANCE_ADMIN", "DATA_STEWARD", "GOVERNANCE_ANALYST"])]

/-- Embedding of `authz.has_access` with the current role made an explicit
argument: `allowed_roles = permission_mappings.get(permission, [])` and then
`role_name in allowed_roles`. -/
def has_access (role_name permission : String) : Bool :=
  let allowed_roles := (permission_mappings.lookup permission).getD []
  allowed_roles.contains role_name

/-- Pandas DataFrame as the DAL and the chart layer see it: a list of column
names and a list of rows, each row a list of cell strings aligned with the
columns. -/
structure Frame where
  columns : List String
  rows : List (List String)
deriving DecidableEq, Repr

/-- The frame `pd.DataFrame()` that `execute_query` returns on failure. -/
def Frame.emptyFrame : Frame := ⟨[], []⟩

/-- Embedding of `GovernanceDAL.execute_query` (dal.py) over an abstract
session: `run` is what `self.session.sql(sql, params).to_pandas()` does, a
computation that either produces a frame or raises. The `try/except` in the
source catches every exception, prints, and returns `pd.DataFrame()`, so the
embedding is a total function into `Frame`. -/
def execute_query (run : String → List String → Except String Frame)
    (sql : String) (params : List String) : Frame :=
  match run sql params with
  | Except.ok f => f
  | Except.error _ => Frame.emptyFrame

/-- Modelled from the spec: the claim C2 under test reads the resolver as
ranking BOTH the stored level and the requested level with default rank 0
for unrecognized strings. This definition follows those words so the claim
can be compared against `page_visible`, which the source code defines. -/
def page_visible_claimC2 (w : Warehouse)
    (role_name page_name required_level : String) : Bool :=
  match check_page_access w role_name page_name with
  | none => false
  | some lvl =>
      decide (level_hierarchy_get lvl 0 ≥ level_hierarchy_get required_level 0)

/-- Helper: a SELECT against `ROLE_PAGE_ACCESS` leaves the warehouse state
untouched, so `page_visible_st` always returns its input state. -/
theorem page_visible_st_snd (w : Warehouse) (role page req : String) :
    (page_visible_st w role page req).2 = w := by
  unfold page_visible_st
  cases check_page_access w role page with
  | none => rfl
  | some lvl => by_cases hl : lvl = "" <;> simp [hl]

/-- Helper: the required-level rank is at least 1 for every string, because
the dict lookup falls back to the READ rank. -/
theorem level_hierarchy_get_one_le (req : String) :
    1 ≤ level_hierarchy_get req 1 := by
  unfold level_hierarchy_get
  split <;> try omega
  split <;> try omega
  split <;> omega

/-- Helper: when the DAL lookup yields no access level, `page_visible`
returns false. -/
theorem page_visible_of_no_rule (w : Warehouse) (role page req : String)
    (h : check_page_access w role page = none) :
    page_visible w role page req = false := by
  simp [page_visible, page_visible_st, h]

/-- Helper: when the DAL lookup yields an access level, the decision is the
rank comparison with default 0 on the rule side and default 1 on the
required side; the empty-string early return agrees with rank 0. -/
theorem page_visible_rank_eq (w : Warehouse) (role page req lvl : String)
    (h : check_page_access w role page = some lvl) :
    page_visible w role page req =
      decide (level_hierarchy_get lvl 0 ≥ level_hierarchy_get req 1) := by
  simp only [page_visible, page_visible_st, h]
  by_cases hl : lvl = ""
  · subst hl
    have h1 := level_hierarchy_get_one_le req
    have h0 : level_hierarchy_get "" 0 = 0 := rfl
    have hd : decide (level_hierarchy_get "" 0 ≥ level_hierarchy_get req 1) = false := by
      rw [h0]
      simp only [ge_iff_le, decide_eq_false_iff_not, not_le]
      omega
    simp [hd]
  · simp [hl]

/-- Claim C1, counterexample: with the rule table absent, and likewise with
the table present but holding no matching rule, the page-access resolution
denies, contradicting the claimed default-allow. -/
theorem c1_counterexample :
    page_visible ⟨none, none⟩ "ANALYST" "HOME" "READ" = false ∧
    page_visible ⟨some [], none⟩ "ANALYST" "HOME" "READ" = false :=
  ⟨rfl, rfl⟩

/-- Claim C1, amended: if the access-rule store is absent or no rule matches
the (role, page) pair — that is, whenever `check_page_access` yields no
level — the resolution returns allowed = false: the system defaults closed,
not open. -/
theorem c1_default_deny (w : Warehouse) (role page req : String)
    (h : check_page_access w role page = none) :
    page_visible w role page req = false :=
  page_visible_of_no_rule w role page req h

/-- Claim C1 witness: the amended theorem applied to a warehouse with no
rule table. -/
theorem c1_default_deny_witness :
    check_page_access ⟨none, none⟩ "ANALYST" "HOME" = none ∧
    page_visible ⟨none, none⟩ "ANALYST" "HOME" "READ" = false :=
  ⟨rfl, c1_default_deny ⟨none, none⟩ "ANALYST" "HOME" "READ" rfl⟩

/-- Claim C2, counterexample: with a rule whose level is the unrecognized
string "LIMITED" and an unrecognized required level "BOGUS", the code denies
(rule rank 0 is compared against the required-level default rank 1), while
the claim as stated — both sides defaulting to rank 0 — would allow. -/
theorem c2_counterexample :
    page_visible ⟨some [⟨"GOVERNANCE_ANALYST", "HOME", "LIMITED"⟩], none⟩
      "GOVERNANCE_ANALYST" "HOME" "BOGUS" = false ∧
    page_visible_claimC2 ⟨some [⟨"GOVERNANCE_ANALYST", "HOME", "LIMITED"⟩], none⟩
      "GOVERNANCE_ANALYST" "HOME" "BOGUS" = true :=
  ⟨rfl, rfl⟩

/-- Claim C2, amended: when a rule exists, the decision equals the rank
comparison where the rule level maps through READ=1, WRITE=2, ADMIN=3 with
default 0, but the required level maps through the same order with default 1
(the READ rank); the early rejection of an empty-string rule level coincides
with its rank 0. -/
theorem c2_rank_comparison (w : Warehouse) (role page req lvl : String)
    (h : check_page_access w role page = some lvl) :
    page_visible w role page req =
      decide (level_hierarchy_get lvl 0 ≥ level_hierarchy_get req 1) :=
  page_visible_rank_eq w role page req lvl h

/-- Claim C2 witness: the amended theorem applied to a store holding the rule
(DATA_STEWARD, HOME, WRITE), checked at required level ADMIN. -/
theorem c2_rank_comparison_witness :
    check_page_access ⟨some [⟨"DATA_STEWARD", "HOME", "WRITE"⟩], none⟩
      "DATA_STEWARD" "HOME" = some "WRITE" ∧
    page_visible ⟨some [⟨"DATA_STEWARD", "HOME", "WRITE"⟩], none⟩
      "DATA_STEWARD" "HOME" "ADMIN" =
      decide (level_hierarchy_get "WRITE" 0 ≥ level_hierarchy_get "ADMIN" 1) :=
  ⟨rfl, c2_rank_comparison ⟨some [⟨"DATA_STEWARD", "HOME", "WRITE"⟩], none⟩
    "DATA_STEWARD" "HOME" "ADMIN" "WRITE" rfl⟩

/-- Claim C3: the rank comparison is monotonic — for a fixed store, role and
page, if the resolution at required level READ denies, then the resolutions
at WRITE and at ADMIN also deny. -/
theorem c3_monotonic (w : Warehouse) (role page : String)
    (h : page_visible w role page "READ" = false) :
    page_visible w role page "WRITE" = false ∧
    page_visible w role page "ADMIN" = false := by
  cases hacc : check_page_access w role page with
  | none =>
      exact ⟨page_visible_of_no_rule w role page "WRITE" hacc,
             page_visible_of_no_rule w role page "ADMIN" hacc⟩
  | some lvl =>
      rw [page_visible_rank_eq w role page "READ" lvl hacc] at h
      rw [page_visible_rank_eq w role page "WRITE" lvl hacc,
          page_visible_rank_eq w role page "ADMIN" lvl hacc]
      have hw : level_hierarchy_get "WRITE" 1 = 2 := rfl
      have ha : level_hierarchy_get "ADMIN" 1 = 3 := rfl
      have hr : level_hierarchy_get "READ" 1 = 1 := rfl
      rw [hr] at h
      rw [hw, ha]
      simp only [decide_eq_false_iff_not, not_le] at h ⊢
      omega

/-- Claim C3 witness: the monotonicity theorem applied to the empty store,
where READ is denied. -/
theorem c3_monotonic_witness :
    page_visible ⟨some [], none⟩ "ANALYST" "LINEAGE" "READ" = false ∧
    page_visible ⟨some [], none⟩ "ANALYST" "LINEAGE" "WRITE" = false ∧
    page_visible ⟨some [], none⟩ "ANALYST" "LINEAGE" "ADMIN" = false :=
  ⟨rfl, c3_monotonic ⟨some [], none⟩ "ANALYST" "LINEAGE" rfl⟩

/-- Claim C4: a rule whose level is ADMIN allows every required level among
READ, WRITE and ADMIN. -/
theorem c4_admin_allows_all (w : Warehouse) (role page : String)
    (h : check_page_access w role page = some "ADMIN") :
    page_visible w role page "READ" = true ∧
    page_visible w role page "WRITE" = true ∧
    page_visible w role page "ADMIN" = true := by
  refine ⟨?_, ?_, ?_⟩ <;> simp [page_visible, page_visible_st, h, level_hierarchy_get]

/-- Claim C4 witness: the theorem applied to a store holding the rule
(GOVERNANCE_ADMIN, HOME, ADMIN). -/
theorem c4_admin_allows_all_witness :
    check_page_access ⟨some [⟨"GOVERNANCE_ADMIN", "HOME", "ADMIN"⟩], none⟩
      "GOVERNANCE_ADMIN" "HOME" = some "ADMIN" ∧
    page_visible ⟨some [⟨"GOVERNANCE_ADMIN", "HOME", "ADMIN"⟩], none⟩
      "GOVERNANCE_ADMIN" "HOME" "READ" = true ∧
    page_visible ⟨some [⟨"GOVERNANCE_ADMIN", "HOME", "ADMIN"⟩], none⟩
      "GOVERNANCE_ADMIN" "HOME" "WRITE" = true ∧
    page_visible ⟨some [⟨"GOVERNANCE_ADMIN", "HOME", "ADMIN"⟩], none⟩
      "GOVERNANCE_ADMIN" "HOME" "ADMIN" = true :=
  ⟨rfl, c4_admin_allows_all ⟨some [⟨"GOVERNANCE_ADMIN", "HOME", "ADMIN"⟩], none⟩
    "GOVERNANCE_ADMIN" "HOME" rfl⟩

/-- Claim C5, counterexample: the resolution is NOT case-insensitive and an
empty role is NOT treated as PUBLIC — a rule stored for role "ANALYST" does
not match the query role "analyst", and a rule stored for "PUBLIC" does not
match the empty role, while the exact-case queries succeed. -/
theorem c5_counterexample :
    page_visible ⟨some [⟨"ANALYST", "HOME", "READ"⟩], none⟩
      "analyst" "HOME" "READ" = false ∧
    page_visible ⟨some [⟨"ANALYST", "HOME", "READ"⟩], none⟩
      "ANALYST" "HOME" "READ" = true ∧
    page_visible ⟨some [⟨"PUBLIC", "HOME", "READ"⟩], none⟩
      "" "HOME" "READ" = false ∧
    page_visible ⟨some [⟨"PUBLIC", "HOME", "READ"⟩], none⟩
      "PUBLIC" "HOME" "READ" = true :=
  ⟨rfl, rfl, rfl, rfl⟩

/-- Claim C5, amended: role and page are matched by exact, case-sensitive
string equality with no normalization, so any (role, page) pair that no
stored rule matches exactly is denied; the role "PUBLIC" is substituted only
when reading the session context raises, and an empty role string coming
from a successful session read is kept as the empty string. -/
theorem c5_exact_match (rows : List AccessRule) (dv : Option (List DomainRule))
    (role page req e u : String)
    (h : ∀ r ∈ rows, ¬(r.role = role ∧ r.page = page)) :
    page_visible ⟨some rows, dv⟩ role page req = false ∧
    get_current_user_role (Except.error e) = ("UNKNOWN", "PUBLIC") ∧
    get_current_user_role (Except.ok (u, "")) = (u, "") := by
  have hq : query_role_page_access ⟨some rows, dv⟩ role page = [] := by
    simp only [query_role_page_access, List.filter_eq_nil_iff]
    intro r hr
    have := h r hr
    simp only [Bool.and_eq_true, beq_iff_eq]
    tauto
  have hnone : check_page_access ⟨some rows, dv⟩ role page = none := by
    simp [check_page_access, hq]
  exact ⟨page_visible_of_no_rule _ role page req hnone, rfl, rfl⟩

/-- Claim C5 witness: the amended theorem applied to a one-rule store whose
rule differs from the queried role only in case. -/
theorem c5_exact_match_witness :
    (∀ r ∈ [AccessRule.mk "ANALYST" "HOME" "READ"],
      ¬(r.role = "analyst" ∧ r.page = "HOME")) ∧
    page_visible ⟨some [⟨"ANALYST", "HOME", "READ"⟩], none⟩
      "analyst" "HOME" "READ" = false :=
  ⟨by decide,
   (c5_exact_match [⟨"ANALYST", "HOME", "READ"⟩] none
     "analyst" "HOME" "READ" "err" "USER" (by decide)).1⟩

/-- Claim C6: `execute_query` never propagates an error — any failing
underlying query produces the empty frame, making a failed query
indistinguishable from a successful query that matched no rows. -/
theorem c6_errors_become_empty
    (run norows : String → List String → Except String Frame)
    (sql : String) (params : List String) (e : String)
    (h : run sql params = Except.error e)
    (h2 : norows sql params = Except.ok Frame.emptyFrame) :
    execute_query run sql params = Frame.emptyFrame ∧
    execute_query run sql params = execute_query norows sql params := by
  simp [execute_query, h, h2]

/-- Claim C6 witness: the theorem applied to a session that always raises
and a session that always returns zero rows. -/
theorem c6_errors_become_empty_witness :
    execute_query (fun _ _ => Except.error "connection lost")
      "SELECT 1" [] = Frame.emptyFrame ∧
    execute_query (fun _ _ => Except.error "connection lost") "SELECT 1" [] =
      execute_query (fun _ _ => Except.ok Frame.emptyFrame) "SELECT 1" [] :=
  c6_errors_become_empty (fun _ _ => Except.error "connection lost")
    (fun _ _ => Except.ok Frame.emptyFrame) "SELECT 1" [] "connection lost"
    rfl rfl

/-- Claim C7: the resolution is deterministic and read-only — running
`page_visible_st` a second time on the state left by the first run, with the
same role, page and required level, yields the same decision, and the run
leaves the warehouse state unchanged. -/
theorem c7_deterministic_readonly (w : Warehouse) (role page req : String) :
    (page_visible_st ((page_visible_st w role page req).2) role page req).1 =
      (page_visible_st w role page req).1 ∧
    (page_visible_st w role page req).2 = w := by
  have hs := page_visible_st_snd w role page req
  exact ⟨by rw [hs], hs⟩

/-- Claim C9: domain access defaults closed — `can_access_domain` is true
exactly when the `DOMAIN_VISIBILITY` lookup finds a row for (role, domain)
whose access type is FULL or LIMITED; no row, or an absent (erroring) table,
yields false. -/
theorem c9_domain_default_closed (w : Warehouse) (role domain : String) :
    (can_access_domain w role domain = true ↔
      ∃ row, check_domain_access w role domain = some row ∧
        (row.accessType = some "FULL" ∨ row.accessType = some "LIMITED")) ∧
    (check_domain_access w role domain = none →
      can_access_domain w role domain = false) ∧
    (w.domainVisibility = none → can_access_domain w role domain = false) := by
  refine ⟨?_, ?_, ?_⟩
  · cases hacc : check_domain_access w role domain with
    | none => simp [can_access_domain, hacc]
    | some row =>
        simp only [can_access_domain, hacc, Bool.or_eq_true, beq_iff_eq,
          Option.some.injEq, exists_eq_left]
        constructor
        · intro hx
          exact ⟨row, rfl, hx⟩
        · rintro ⟨row2, hrow2, hx⟩
          cases hrow2
          exact hx
  · intro hacc
    simp [can_access_domain, hacc]
  · intro hdv
    simp [can_access_domain, check_domain_access, query_domain_visibility, hdv]

/-- Claim C9 witness: the theorem applied to a store with a LIMITED row, an
empty table, and an absent table. -/
theorem c9_domain_default_closed_witness :
    can_access_domain ⟨none, some [⟨"ANALYST", "SALES", some "LIMITED", none⟩]⟩
      "ANALYST" "SALES" = true ∧
    can_access_domain ⟨none, some []⟩ "ANALYST" "SALES" = false ∧
    can_access_domain ⟨none, none⟩ "ANALYST" "SALES" = false :=
  ⟨(c9_domain_default_closed
      ⟨none, some [⟨"ANALYST", "SALES", some "LIMITED", none⟩]⟩
      "ANALYST" "SALES").1.mpr
      ⟨⟨"ANALYST", "SALES", some "LIMITED", none⟩, rfl, Or.inr rfl⟩,
   (c9_domain_default_closed ⟨none, some []⟩ "ANALYST" "SALES").2.1 rfl,
   (c9_domain_default_closed ⟨none, none⟩ "ANALYST" "SALES").2.2 rfl⟩

/-- Claim C10: permission checks go through the fixed ten-entry
`permission_mappings` table only — `has_access` is true exactly when the
permission is one of its keys and the role is in that key's role list; in
particular every unmapped permission is denied for every role. -/
theorem c10_fixed_mapping (role perm : String) :
    (has_access role perm = true ↔
      ∃ roles, permission_mappings.lookup perm = some roles ∧ role ∈ roles) ∧
    (permission_mappings.map Prod.fst).length = 10 := by
  refine ⟨?_, rfl⟩
  unfold has_access
  cases hlook : permission_mappings.lookup perm with
  | none => simp [hlook]
  | some roles => simp [hlook]

end SFGov
